import Mathlib

/-!
Verification of the roombapy mission-state interpreter and position pipeline.

The definitions below are a shallow embedding of the Python sources:
  * `src/roombapy/roomba.py` (class `Roomba`: telemetry histories, flags,
    the `_update_state_machine` / `_update_flags` transition logic),
  * `src/roombapy/roomba_mapper.py` (the top-level `RoombaMapper`),
  * `src/roombapy/mapping/roomba_mapper.py` and
    `src/roombapy/mapping/math_helpers.py` (the mapping-package variant).
Machine floats are modelled by `ℚ`; Python `None` by `Option`; Python
exceptions by `Except PyErr`.
-/

namespace Roombapy

/-- Python exceptions that the modelled code can raise. -/
inductive PyErr where
  | attributeError
  | typeError
  | keyError
  | valueError
deriving DecidableEq

instance {ε α : Type} [DecidableEq ε] [DecidableEq α] :
    DecidableEq (Except ε α) := fun a b =>
  match a, b with
  | .ok x, .ok y =>
    if h : x = y then isTrue (by rw [h])
    else isFalse (by intro hc; cases hc; exact h rfl)
  | .error e, .error f =>
    if h : e = f then isTrue (by rw [h])
    else isFalse (by intro hc; cases hc; exact h rfl)
  | .ok _, .error _ => isFalse (by intro hc; cases hc)
  | .error _, .ok _ => isFalse (by intro hc; cases hc)

/-- A Python scalar as it appears in the telemetry snapshot: `None`,
an `int`, or a `str`.  Used where the source compares values of
possibly different runtime types (e.g. `self.batPct != "100"`). -/
inductive PyV where
  | vnone
  | vint (n : Int)
  | vstr (s : String)
deriving DecidableEq

/-- Python `!=` on scalars: values of different types are unequal,
values of the same type compare structurally. -/
def pyNe (a b : PyV) : Bool := a != b

/-- `ROOMBA_STATES` from `src/roombapy/const.py` (lines 101-120):
phase code ↦ state label; the empty phase maps to `None`. -/
def roombaStates : List (String × Option String) :=
  [("charge", some "Charging"),
   ("new", some "New Mission"),
   ("run", some "Running"),
   ("resume", some "Running"),
   ("hmMidMsn", some "Recharging"),
   ("recharge", some "Recharging"),
   ("stuck", some "Stuck"),
   ("hmUsrDock", some "User Docking"),
   ("dock", some "Docking"),
   ("dockend", some "Docking - End Mission"),
   ("cancelled", some "Cancelled"),
   ("completed", some "Mission Completed"),
   ("stop", some "Stopped"),
   ("pause", some "Paused"),
   ("hmPostMsn", some "End Mission"),
   ("evac", some "Emptying Bin"),
   ("chargingerror", some "Base Unplugged"),
   ("", none)]

/-- `phase in ROOMBA_STATES` / `ROOMBA_STATES[phase]`: `none` when the
key is absent, otherwise the stored label (itself an `Option`). -/
def roombaStatesFind (k : String) : Option (Option String) :=
  (roombaStates.find? (fun p => p.1 == k)).map Prod.snd

/-- `ROOMBA_STATES[k]` for a key that is present (all uses in
`_update_state_machine` are on literal keys of the table). -/
def RSget (k : String) : Option String :=
  match roombaStatesFind k with
  | some v => v
  | none => none

/-- One entry of `Roomba._history`: the `{current, previous}` pair kept
by `_update_history`.  `none` models both an absent entry and a stored
Python `None`, exactly as `self._history.get(p, {}).get('current')`
cannot distinguish them. -/
structure HistO (α : Type) where
  current : Option α
  previous : Option α
deriving DecidableEq

/-- `Roomba._update_history` (roomba.py lines 476-491) for scalar-valued
properties: `previous` becomes the old `current`, except that a missing
old value is replaced by the new one. -/
def updateHistory {α : Type} (h : HistO α) (value : Option α) : HistO α :=
  let previous :=
    match h.current with
    | some p => some p
    | none => value
  ⟨value, previous⟩

/-- `Roomba.changed` (roomba.py lines 505-507). -/
def changedO {α : Type} [DecidableEq α] (h : HistO α) : Bool :=
  h.current != h.previous

/-- The flag dictionary `Roomba._flags`; only these six flag names are
ever set by the source, so the open string-keyed dict is modelled as a
record of booleans (`false` = flag absent). -/
structure Flags where
  bin_full : Bool := false
  tank_low : Bool := false
  battery_low : Bool := false
  stuck : Bool := false
  new_mission : Bool := false
  cancelled : Bool := false
deriving DecidableEq

/-- `clear_flags()` with no argument: `self._flags = {}`. -/
def Flags.empty : Flags := ⟨false, false, false, false, false, false⟩

/-- `Roomba._update_flags` (roomba.py lines 775-808).  It reads
`self.current_state` as it is when the method is called — which, inside
`_update_state_machine`, is the *pre-transition* state.  The final
`hmMidMsn` branch is kept although it is dead code:
`ROOMBA_STATES["hmMidMsn"] = "Recharging" = ROOMBA_STATES["recharge"]`,
so the earlier `recharge` branch always fires first. -/
def updateFlags (cs : Option String) (binFull : Bool) (tanklvl : Option Int)
    (f : Flags) : Flags :=
  let f := if !binFull then { f with bin_full := false } else f
  let f :=
    match tanklvl with
    | some t => if t < 100 then { f with tank_low := true }
                else { f with tank_low := false }
    | none => f
  if cs = RSget "charge" then { f with battery_low := false, stuck := false }
  else if cs = RSget "recharge" then { f with battery_low := false, stuck := false }
  else if cs = RSget "run" then { f with stuck := false, new_mission := false }
  else if cs = RSget "new" then { Flags.empty with new_mission := true }
  else if cs = RSget "stuck" then { f with stuck := true }
  else if cs = RSget "cancelled" then { f with cancelled := true }
  else if cs = RSget "hmMidMsn" then
    (if binFull then { f with bin_full := true } else { f with battery_low := true })
  else f

/-- A raw pose sample as produced by `Roomba.co_ords`: the dict
`{'x': ..., 'y': ..., 'theta': ...}`. -/
structure Pos where
  x : Int
  y : Int
  theta : Int
deriving DecidableEq

/-- A translated image-space position (`RoombaPosition`). -/
structure ImgPos where
  x : Int
  y : Int
  theta : Int
deriving DecidableEq

/-- `DEFAULT_MAP_SKIP_POINTS` (const.py line 123). -/
def DEFAULT_MAP_SKIP_POINTS : Nat := 3

/-- `DEFAULT_MAP_MAX_ALLOWED_DISTANCE` (const.py line 124). -/
def DEFAULT_MAP_MAX_ALLOWED_DISTANCE : Nat := 500

/-- The module-level `HAVE_PIL` flag; we model the environment where the
PIL import succeeded. -/
def HAVE_PIL : Bool := true

/-- The mutable state of the top-level `RoombaMapper` that the claims
depend on (roomba_mapper.py lines 336-343). -/
structure MapperSt where
  mapEnabled : Bool
  history : List Pos
  historyTranslated : List ImgPos
  pointsToSkip : Nat
  pointsSkipped : Nat
  maxDistance : Nat
deriving DecidableEq

/-- `RoombaMapper.reset_map` (roomba_mapper.py lines 453-459):
`capPose` is the truthiness of `self.roomba.cap.get("pose", False)`. -/
def resetMap (capPose : Bool) (m : MapperSt) : MapperSt :=
  { m with
    mapEnabled := capPose && HAVE_PIL
    history := []
    historyTranslated := []
    pointsToSkip := DEFAULT_MAP_SKIP_POINTS
    pointsSkipped := 0 }

/-- The attribute names defined on class `Roomba`
(roomba.py lines 43-814): every instance attribute assigned in
`__init__`, every `@property`, and every method.  Attribute lookup on a
`Roomba` object succeeds exactly for these names. -/
def roombaAttrs : List String :=
  ["log", "loop", "remote_client", "continuous", "stop_connection",
   "periodic_connection_running", "topic", "exclude", "delay",
   "periodic_connection_duration", "roomba_connected", "indent",
   "master_indent", "current_state", "master_state", "time", "_thread",
   "on_message_callbacks", "on_disconnect_callbacks", "client_error",
   "_mapper", "_history", "_flags", "_new_mission_start_time", "_pmap_id",
   "_maps", "co_ords", "current_pmap_id", "error_num", "error_message",
   "not_ready_num", "not_ready_message", "cleanMissionStatus", "pose",
   "batPct", "bin_full", "tanklvl", "rechrgM", "calc_mssM", "mssnM",
   "expireM", "cap", "sku", "mission", "phase", "cleanMissionStatus_phase",
   "pmaps", "regions", "map_min_coords", "map_max_coords", "docked",
   "register_on_message_callback", "register_on_disconnect_callback",
   "_init_remote_client_callbacks", "connect", "_connect", "disconnect",
   "periodic_connection", "on_connect", "on_disconnect", "on_message",
   "send_command", "set_preference", "add_map_definition",
   "add_map_icon_set", "get_map", "dict_merge", "recursive_lookup",
   "get_property", "set_flags", "clear_flags", "flag_set", "_handle_flags",
   "_update_history", "_set_history", "current", "previous", "changed",
   "zero_coords", "zero_pose", "_get_error_message",
   "_get_not_ready_message", "_get_mission_map", "_get_map",
   "_get_default_map", "_decode_payload", "_update_state_machine",
   "_update_flags", "_update_map_id"]

/-- Attribute lookup on a `Roomba` object. -/
def roombaHasAttr (a : String) : Bool := roombaAttrs.contains a

/-- `RoombaMapper.update_map` (roomba_mapper.py lines 461-479).  After
the `map_enabled` early return, the first statement evaluates
`self.roomba.timer_active('update_after_completed')`; the attribute
lookup is performed before anything else (in particular before
`force_redraw` is consulted, since it is the left operand of `and`).
When the lookup succeeds the method would go on to the timer check, the
changed-pose/phase check and `_render_map`; that continuation is
unreachable for this codebase (no `timer_active` exists) and is modelled
as returning the state unchanged. -/
def updateMapTop (m : MapperSt) (_forceRedraw : Bool) : Except PyErr MapperSt :=
  if !m.mapEnabled then .ok m
  else if roombaHasAttr "timer_active" then .ok m
  else .error .attributeError

/-- The values `_update_state_machine` reads from the telemetry snapshot
after a merge (each is `get_property(...)` on the merged
`master_state`): a property that has never been observed reads as
`none`.  `binFull` is the truthiness of `get_property("bin_full")`,
`mssnM` the effective `self.mssnM` (including the
`mssnStrtTm` fallback), `capPose` the truthiness of
`cap.get("pose", False)` used by `reset_map`. -/
structure MergeInput where
  cycle : Option String
  phase : Option String
  pose : Option Pos
  binFull : Bool
  tanklvl : Option Int
  mssnM : Option Int
  batPct : PyV
  capPose : Bool
deriving DecidableEq

/-- The interpreter state owned by a `Roomba` session. -/
structure RState where
  currentState : Option String
  cycleHist : HistO String
  phaseHist : HistO String
  poseHist : HistO Pos
  flags : Flags
  mapper : MapperSt
  newMissionStarted : Bool
deriving DecidableEq

/-- Result of one `_update_state_machine` call: the new session state,
whether `reset_map` was invoked on this merge, and whether the trailing
`self._mapper.update_map(...)` call raised `AttributeError`. -/
structure StepOut where
  st : RState
  resetCalled : Bool
  raised : Bool
deriving DecidableEq

/-- `Roomba._update_state_machine` (roomba.py lines 584-773), one
telemetry merge.  Order is exactly the source's: history updates for
`cycle`, `phase`, `pose`; `_update_flags` (which reads the
*pre-transition* `current_state`); the unset-history guard; the
`mssnM is None` pre-check; the first-match transition chain; finally
`update_map(current_mission != current_state)` when the new state is
truthy. -/
def stepMerge (st0 : RState) (inp : MergeInput) : StepOut :=
  let cycleHist := updateHistory st0.cycleHist inp.cycle
  let phaseHist := updateHistory st0.phaseHist inp.phase
  let poseHist := updateHistory st0.poseHist inp.pose
  let flags := updateFlags st0.currentState inp.binFull inp.tanklvl st0.flags
  let st := { st0 with
              cycleHist := cycleHist
              phaseHist := phaseHist
              poseHist := poseHist
              flags := flags }
  match inp.phase, inp.cycle with
  | none, _ => ⟨st, false, false⟩
  | some _, none => ⟨st, false, false⟩
  | some ph, some _cy =>
    let cs0 := st.currentState
    let cs1 :=
      if inp.mssnM = none ∧ ph = "charge" ∧
          (cs0 = RSget "pause" ∨ cs0 = RSget "recharge")
      then RSget "cancelled" else cs0
    let res : Option String × Option String × Bool × MapperSt × Bool :=
      if cs1 = RSget "charge" ∧ ph = "run" then
        (RSget "new", cs0, true, resetMap inp.capPose st.mapper, true)
      else if cs1 = RSget "run" ∧ ph = "hmMidMsn" then
        (RSget "dock", cs0, false, st.mapper, st0.newMissionStarted)
      else if cs1 = RSget "dock" ∧ ph = "charge" then
        (RSget "recharge", cs0, false, st.mapper, st0.newMissionStarted)
      else if cs1 = RSget "recharge" ∧ ph = "charge" ∧ inp.binFull then
        (RSget "pause", cs0, false, st.mapper, st0.newMissionStarted)
      else if cs1 = RSget "run" ∧ ph = "charge" then
        (RSget "recharge", cs0, false, st.mapper, st0.newMissionStarted)
      else if cs1 = RSget "recharge" ∧ ph = "run" then
        (RSget "pause", cs0, false, st.mapper, st0.newMissionStarted)
      else if cs1 = RSget "pause" ∧ ph = "charge" ∧
              pyNe inp.batPct (PyV.vstr "100") then
        (RSget "pause", none, false, st.mapper, st0.newMissionStarted)
      else if cs1 = RSget "charge" ∧ ph = "charge" ∧
              pyNe inp.batPct (PyV.vstr "100") then
        (cs1, none, false, st.mapper, st0.newMissionStarted)
      else if (cs1 = RSget "stop" ∨ cs1 = RSget "pause") ∧ ph = "hmUsrDock" then
        (RSget "cancelled", cs0, false, st.mapper, st0.newMissionStarted)
      else if (cs1 = RSget "hmUsrDock" ∨ cs1 = RSget "cancelled") ∧ ph = "charge" then
        (RSget "dockend", cs0, false, st.mapper, st0.newMissionStarted)
      else if cs1 = RSget "hmPostMsn" ∧ ph = "charge" then
        (RSget "dockend", cs0, false, st.mapper, st0.newMissionStarted)
      else if cs1 = RSget "dockend" ∧ ph = "charge" then
        (RSget "charge", cs0, false, st.mapper, st0.newMissionStarted)
      else if (roombaStatesFind ph).isNone then
        (none, cs0, false, st.mapper, st0.newMissionStarted)
      else
        (RSget ph, cs0, false, st.mapper, st0.newMissionStarted)
    match res with
    | (cs2, curMission, resetCalled, mapper1, nms) =>
      let base := { st with
                    currentState := cs2
                    mapper := mapper1
                    newMissionStarted := nms }
      match cs2 with
      | some _ =>
        match updateMapTop mapper1 (curMission != cs2) with
        | .ok m2 => ⟨{ base with mapper := m2 }, resetCalled, false⟩
        | .error _ => ⟨base, resetCalled, true⟩
      | none => ⟨base, resetCalled, false⟩

/-- `RoombaMapper._map_distance` (roomba_mapper.py lines 784-785):
`int(math.sqrt((x2-x1)**2 + (y2-y1)**2))` — the float square root
truncated to an integer, i.e. the integer square root of the exact sum
of squares. -/
def mapDistance (p1 p2 : Int × Int) : Nat :=
  Nat.sqrt ((p2.1 - p1.1) ^ 2 + (p2.2 - p1.2) ^ 2).toNat

/-- `RoombaMapper._update_state` (roomba_mapper.py lines 481-528).
`tr` is `_map_coord_to_image_coord` (kept as a parameter: its
trigonometric part ranges over ℝ; the raw path history that these claims
concern does not depend on it).  `cs` is `roomba.current_state`,
`changedPose` is `roomba.changed('pose')`, `coords` is
`roomba.co_ords`. -/
def mapperUpdateState (tr : Pos → ImgPos) (m : MapperSt) (cs : Option String)
    (changedPose : Bool) (coords : Pos) : MapperSt :=
  let position : Option Pos := if changedPose then some coords else none
  let position :=
    if cs = RSget "charge" then none
    else if cs = RSget "evac" then none
    else if cs = RSget "completed" then position
    else if cs = RSget "run" then
      (if coords = ⟨0, 0, 0⟩ then none else position)
    else position
  match position with
  | none => m
  | some p =>
    if m.pointsSkipped < m.pointsToSkip then
      { m with pointsSkipped := m.pointsSkipped + 1 }
    else
      match m.history.getLast? with
      | some old =>
        if (old.x, old.y) = (p.x, p.y) then m
        else if m.maxDistance < mapDistance (old.x, old.y) (p.x, p.y) then m
        else { m with
               history := m.history ++ [p]
               historyTranslated := m.historyTranslated ++ [tr p] }
      | none =>
        { m with
          history := m.history ++ [p]
          historyTranslated := m.historyTranslated ++ [tr p] }

/-- Python `min` over a list of pose dicts, as invoked by the top-level
`RoombaMapper.min_coords`: a one-element list returns its element
without any comparison; two or more elements immediately attempt
`dict < dict`, which raises `TypeError`; an empty list raises
`ValueError`. -/
def pyMinSamples : List Pos → Except PyErr Pos
  | [] => .error .valueError
  | [d] => .ok d
  | _ :: _ :: _ => .error .typeError

/-- Python `max` over a list of pose dicts (same behaviour as `min`
for the cases that matter: comparison raises). -/
def pyMaxSamples : List Pos → Except PyErr Pos
  | [] => .error .valueError
  | [d] => .ok d
  | _ :: _ :: _ => .error .typeError

/-- Python subscript `d[i]` on a pose dict with an integer key: the keys
are the strings `'x'`, `'y'`, `'theta'`, so any integer key raises
`KeyError`. -/
def pySubscriptIntKey (_d : Pos) (_i : Nat) : Except PyErr Int :=
  .error .keyError

/-- The top-level `RoombaMapper.min_coords` (roomba_mapper.py lines
356-361): `min(self._history)[0], min(self._history)[1]` over the raw
history of pose dicts, `(0, 0)` when empty. -/
def minCoordsTopLevel (h : List Pos) : Except PyErr (Int × Int) :=
  if h.length > 0 then do
    let m1 ← pyMinSamples h
    let a ← pySubscriptIntKey m1 0
    let m2 ← pyMinSamples h
    let b ← pySubscriptIntKey m2 1
    .ok (a, b)
  else .ok (0, 0)

/-- The top-level `RoombaMapper.max_coords` (roomba_mapper.py lines
363-368). -/
def maxCoordsTopLevel (h : List Pos) : Except PyErr (Int × Int) :=
  if h.length > 0 then do
    let m1 ← pyMaxSamples h
    let a ← pySubscriptIntKey m1 0
    let m2 ← pyMaxSamples h
    let b ← pySubscriptIntKey m2 1
    .ok (a, b)
  else .ok (0, 0)

/-- Python `min` over a non-empty list of ints, as a fold. -/
def foldlMin (a : Int) (l : List Int) : Int := l.foldl min a

/-- Python `max` over a non-empty list of ints, as a fold. -/
def foldlMax (a : Int) (l : List Int) : Int := l.foldl max a

/-- The mapping-package `RoombaMapper.min_coords`
(mapping/roomba_mapper.py lines 108-117):
`(min(map(lambda p: p["x"], h)), min(map(lambda p: p["y"], h)))`,
`(0, 0)` when the history is empty. -/
def minCoordsMapping : List Pos → Int × Int
  | [] => (0, 0)
  | p :: rest => (foldlMin p.x (rest.map (·.x)), foldlMin p.y (rest.map (·.y)))

/-- The mapping-package `RoombaMapper.max_coords`
(mapping/roomba_mapper.py lines 119-127). -/
def maxCoordsMapping : List Pos → Int × Int
  | [] => (0, 0)
  | p :: rest => (foldlMax p.x (rest.map (·.x)), foldlMax p.y (rest.map (·.y)))

/-- Python `%` with a positive right operand on exact numbers:
`x - m * floor(x / m)`, always in `[0, m)`. -/
def pyMod (x m : ℚ) : ℚ := x - m * ⌊x / m⌋

/-- `clamp` (math_helpers.py lines 4-5): `max(min(num, hi), lo)`. -/
def clampQ (num lo hi : ℚ) : ℚ := max (min num hi) lo

/-- `interpolate` (math_helpers.py lines 7-25), floats modelled by ℚ.
The source's quirk is kept: when `out_range` is inverted, the *in*
range variable is overwritten with the sorted out range. -/
def interpolateQ (value : ℚ) (inR outR : ℚ × ℚ) : ℚ :=
  let s := if inR.1 > inR.2 then (inR.2, inR.1) else inR
  let invert := decide (inR.1 > inR.2)
  let s := if outR.1 > outR.2 then (outR.2, outR.1) else s
  let invert := if outR.1 > outR.2 then !invert else invert
  let v := clampQ value s.1 s.2
  let out := (v - s.1) / (s.2 - s.1) * (outR.2 - outR.1)
  if invert then outR.2 - out else out

/-- Python `int()` on an exact number: truncation toward zero. -/
def pyInt (q : ℚ) : Int := if 0 ≤ q then ⌊q⌋ else -⌊-q⌋

/-- Theta correction of the mapping-package transform
(mapping/roomba_mapper.py lines 330-332):
`(angle + theta + 180) % 360`, then `+ 360` if negative (dead: the
Python `%` result is already non-negative). -/
def imgThetaMapping (angle theta : ℚ) : ℚ :=
  let t := pyMod (angle + theta + 180) 360
  if t < 0 then t + 360 else t

/-- Theta correction of the top-level transform
(roomba_mapper.py lines 569-573): `(angle + theta) % 360`, `+ 360` if
negative (dead), then the chirality flip `360 - t`. -/
def imgThetaTopLevel (angle theta : ℚ) : ℚ :=
  let t := pyMod (angle + theta) 360
  let t := if t < 0 then t + 360 else t
  360 - t

/-- The fields of a `RoombaMap` used by `_map_coord_to_image_coord`:
device-space bounding box, raster size, rotation angle. -/
structure MapDefQ where
  coordsStartX : ℚ
  coordsStartY : ℚ
  coordsEndX : ℚ
  coordsEndY : ℚ
  imgWidth : Int
  imgHeight : Int
  angle : ℚ

/-- `RoombaMapper._map_coord_to_image_coord` of the mapping package
(mapping/roomba_mapper.py lines 291-335) after the initial `rotate`
call: `rx, ry` are the rotated coordinates (the trigonometric rotation
ranges over ℝ and is treated as an arbitrary input, so the bounds below
hold for every possible rotated value).  The source's
`clamp(img_x, 0, img_width)` whose result is discarded is omitted, and
the two interpolations and the truncations are exactly the source's. -/
def mapCoordToImageCoordQ (m : MapDefQ) (rx ry theta : ℚ) : Int × Int × Int :=
  let imgX := interpolateQ rx (m.coordsStartX, m.coordsEndX) (0, (m.imgWidth : ℚ) - 1)
  let imgY := interpolateQ ry (m.coordsStartY, m.coordsEndY) (0, (m.imgHeight : ℚ) - 1)
  let imgTheta := imgThetaMapping m.angle theta
  (pyInt imgX, pyInt imgY, pyInt imgTheta)

/-! ### A heap model of Python dict aliasing

`Roomba.dict_merge` mutates nested dicts of `master_state` in place, and
`Roomba._update_history` stores `current.copy()` — a *shallow* copy.
Whether a later merge can change a value already recorded in the history
is a question about object identity, so these operations are modelled
over an explicit heap: an address-indexed store of nodes, where a dict
node holds addresses of its values. -/

/-- A heap node: a Python `int`, `str`, or `dict` (field name ↦
address of the value object). -/
inductive HNode where
  | hint (n : Int)
  | hstr (s : String)
  | hobj (fields : List (String × Nat))
deriving DecidableEq

/-- The heap: node at address `a` is the `a`-th list entry; allocation
appends. -/
abbrev Heap := List HNode

/-- A decoded JSON tree (the `merge_dct` argument of `dict_merge`, fresh
from `_decode_payload`). -/
inductive JTree where
  | jint (n : Int)
  | jstr (s : String)
  | jobj (fields : List (String × JTree))

def heapGet (h : Heap) (a : Nat) : Option HNode := h.get? a

def heapSet (h : Heap) (a : Nat) (n : HNode) : Heap := h.set a n

/-- Dict field lookup (`k in dct` / `dct[k]`). -/
def lookupField (fs : List (String × Nat)) (k : String) : Option Nat :=
  match fs with
  | [] => none
  | (k', a) :: rest => if k' = k then some a else lookupField rest k

/-- Python dict assignment `dct[k] = a`: replace in place, append when
the key is new. -/
def setFieldList (fs : List (String × Nat)) (k : String) (a : Nat) :
    List (String × Nat) :=
  match fs with
  | [] => [(k, a)]
  | (k', a') :: rest =>
    if k' = k then (k, a) :: rest else (k', a') :: setFieldList rest k a

/-- The fields of the dict node at `d` (empty when `d` is not a dict). -/
def objFields (h : Heap) (d : Nat) : List (String × Nat) :=
  match heapGet h d with
  | some (.hobj fs) => fs
  | _ => []

/-- `isinstance(·, dict)` on the object at address `a`. -/
def isObjAddr (h : Heap) (a : Nat) : Bool :=
  match heapGet h a with
  | some (.hobj _) => true
  | _ => false

/-- In-place field assignment on the dict node at `d`. -/
def setField (h : Heap) (d : Nat) (k : String) (a : Nat) : Heap :=
  match heapGet h d with
  | some (.hobj fs) => heapSet h d (.hobj (setFieldList fs k a))
  | _ => h

mutual

/-- Allocate a fresh tree on the heap, returning the new heap and the
address of the root. -/
def allocTree (h : Heap) : JTree → Heap × Nat
  | .jint n => (h ++ [.hint n], h.length)
  | .jstr s => (h ++ [.hstr s], h.length)
  | .jobj fs =>
    let (h', fs') := allocFields h fs
    (h' ++ [.hobj fs'], h'.length)

def allocFields (h : Heap) : List (String × JTree) → Heap × List (String × Nat)
  | [] => (h, [])
  | (k, v) :: rest =>
    let (h', a) := allocTree h v
    let (h'', rest') := allocFields h' rest
    (h'', (k, a) :: rest')

end

mutual

/-- One key of `Roomba.dict_merge` (roomba.py lines 401-421): when the
key is present in `dct`, `dct[k]` is a dict and the merged value is a
mapping, recurse (mutating the existing nested dict in place); otherwise
`dct[k] = merge_dct[k]`. -/
def dictMergeVal (h : Heap) (d : Nat) (k : String) (v : JTree) : Heap :=
  match lookupField (objFields h d) k with
  | some a =>
    match v with
    | .jobj sub =>
      if isObjAddr h a then dictMergeFields h a sub
      else
        let (h', na) := allocTree h v
        setField h' d k na
    | _ =>
      let (h', na) := allocTree h v
      setField h' d k na
  | none =>
    let (h', na) := allocTree h v
    setField h' d k na

/-- `Roomba.dict_merge`: fold `dictMergeVal` over the keys of the
merged document, in order. -/
def dictMergeFields (h : Heap) (d : Nat) : List (String × JTree) → Heap
  | [] => h
  | (k, v) :: rest => dictMergeFields (dictMergeVal h d k v) d rest

end

/-- `Roomba._update_history` on the heap (roomba.py lines 476-491) for
the interesting case: `cur` is the reference returned by
`get_property` (`none` for Python `None`).  When the value is a dict, a
*shallow* copy is stored (`current.copy()`): a fresh dict node holding
the same value addresses.  `entry` is the previous
`self._history[property]` pair of references, if any; the new pair is
returned together with the possibly extended heap. -/
def updateHistoryHeap (h : Heap) (entry : Option (Option Nat × Option Nat))
    (cur : Option Nat) : Heap × (Option Nat × Option Nat) :=
  let hc : Heap × Option Nat :=
    match cur with
    | some a =>
      match heapGet h a with
      | some (.hobj fs) => (h ++ [.hobj fs], some h.length)
      | _ => (h, some a)
    | none => (h, none)
  let prev : Option Nat :=
    match entry with
    | some (curOld, _) =>
      match curOld with
      | some p => some p
      | none => hc.2
    | none => hc.2
  (hc.1, (hc.2, prev))

/-- Read the integer at `h[a][k]` (one dict level down). -/
def readIntAt1 (h : Heap) (a : Nat) (k : String) : Option Int :=
  match lookupField (objFields h a) k with
  | some b =>
    match heapGet h b with
    | some (.hint n) => some n
    | _ => none
  | none => none

/-- Read the integer at `h[a][k1][k2]` (two dict levels down). -/
def readIntAt2 (h : Heap) (a : Nat) (k1 k2 : String) : Option Int :=
  match lookupField (objFields h a) k1 with
  | some b => readIntAt1 h b k2
  | none => none

/-! ### Concrete sessions and telemetry merges used by the claims -/

/-- A mapper whose map is disabled (the state before any `reset_map`
with a pose-capable device, or after one with `cap.pose` absent). -/
def mapperOff : MapperSt := ⟨false, [], [], 3, 0, 500⟩

/-- A session currently `Charging`, with `cycle` and `phase` histories
already populated from earlier telemetry. -/
def sessionCharging : RState :=
  { currentState := some "Charging"
    cycleHist := ⟨some "none", some "none"⟩
    phaseHist := ⟨some "charge", some "charge"⟩
    poseHist := ⟨none, none⟩
    flags := Flags.empty
    mapper := mapperOff
    newMissionStarted := false }

/-- A session currently `Running` on a `clean` mission. -/
def sessionRunning : RState :=
  { sessionCharging with
    currentState := some "Running"
    cycleHist := ⟨some "clean", some "clean"⟩
    phaseHist := ⟨some "run", some "run"⟩ }

/-- Merge reporting `phase=charge`, `cycle=none`. -/
def mergeChargeNone : MergeInput :=
  { cycle := some "none", phase := some "charge", pose := none
    binFull := false, tanklvl := none, mssnM := none
    batPct := PyV.vint 50, capPose := false }

/-- Merge reporting `phase=run`, `cycle=clean`. -/
def mergeRunClean : MergeInput :=
  { mergeChargeNone with cycle := some "clean", phase := some "run" }

/-- Merge reporting `phase=charge`, `cycle=none`, with a mission time
present and a chosen bin-full reading. -/
def mergeEndOfMission (bf : Bool) : MergeInput :=
  { mergeChargeNone with binFull := bf, mssnM := some 30 }

/-- Merge on a session whose `cycle` and `phase` have never been
observed (`get_property` yields `None` for both), with a tank level in
the snapshot. -/
def mergeUnsetHistories : MergeInput :=
  { cycle := none, phase := none, pose := none
    binFull := false, tanklvl := some 50, mssnM := none
    batPct := PyV.vnone, capPose := false }

/-- Merge reporting `phase=run` while `cycle` stays `none`. -/
def mergeRunCycleNone : MergeInput :=
  { mergeChargeNone with phase := some "run" }

/-- Merge reporting the docking-return phase `hmMidMsn` mid-mission. -/
def mergeHmMidMsn : MergeInput :=
  { mergeChargeNone with
    cycle := some "clean"
    phase := some "hmMidMsn"
    mssnM := some 30 }

/-! ### C1 -/

/-- C1, counterexample.  From a `Charging` session with histories set,
the merges `phase=charge, cycle=none` then `phase=run, cycle=clean` do
yield state `New Mission` and do reset the map (path history cleared) on
the second merge — but the `new_mission` flag is NOT in the flag set
after that merge, because `_update_flags` runs before the transition and
keyed off the pre-transition state `Charging`.  This refutes the claim,
which asserts the flag is set after the second merge. -/
theorem c1_counterexample :
    (stepMerge (stepMerge sessionCharging mergeChargeNone).st mergeRunClean).st.currentState
      = some "New Mission" ∧
    (stepMerge (stepMerge sessionCharging mergeChargeNone).st mergeRunClean).resetCalled
      = true ∧
    (stepMerge (stepMerge sessionCharging mergeChargeNone).st mergeRunClean).st.mapper.history
      = [] ∧
    (stepMerge (stepMerge sessionCharging mergeChargeNone).st mergeRunClean).st.flags.new_mission
      = false := by
  decide

/-- C1, amended: after the two merges the state is `New Mission`, the
map reset happened on the second merge, but `new_mission` is still
clear; the flag is set only on the *following* merge (here a third merge
with the same `run`/`clean` telemetry), because the flag refresh reads
the state from before the transition of its own merge. -/
theorem c1_amended :
    (stepMerge (stepMerge sessionCharging mergeChargeNone).st mergeRunClean).st.currentState
      = some "New Mission" ∧
    (stepMerge (stepMerge sessionCharging mergeChargeNone).st mergeRunClean).resetCalled
      = true ∧
    (stepMerge (stepMerge sessionCharging mergeChargeNone).st mergeRunClean).st.mapper.history
      = [] ∧
    (stepMerge (stepMerge sessionCharging mergeChargeNone).st mergeRunClean).st.flags.new_mission
      = false ∧
    (stepMerge (stepMerge (stepMerge sessionCharging mergeChargeNone).st mergeRunClean).st
        mergeRunClean).st.flags.new_mission = true := by
  decide

/-! ### C2 -/

/-- C2, counterexample.  From `Running` on cycle `clean`, a merge with
`cycle=none` (an observed `clean → none` cycle transition, as the
updated history shows) and `phase=charge` produces state `Recharging` —
not `Mission Completed` when `bin_full` is false, and not `Cancelled`
when `bin_full` is true: the transition chain of
`_update_state_machine` never consults the cycle history. -/
theorem c2_counterexample :
    changedO (stepMerge sessionRunning (mergeEndOfMission false)).st.cycleHist = true ∧
    (stepMerge sessionRunning (mergeEndOfMission false)).st.currentState
      = some "Recharging" ∧
    (stepMerge sessionRunning (mergeEndOfMission false)).st.currentState
      ≠ some "Mission Completed" ∧
    (stepMerge sessionRunning (mergeEndOfMission true)).st.currentState
      = some "Recharging" ∧
    (stepMerge sessionRunning (mergeEndOfMission true)).st.currentState
      ≠ some "Cancelled" := by
  decide

/-- C2, amended: a `clean → none` cycle transition does not drive the
state.  The next state is produced by the `(current_state, phase)`
transition chain alone: from `Running` with `phase=charge` the session
enters `Recharging`, for either value of the bin-full property. -/
theorem c2_amended :
    ∀ bf : Bool,
      changedO (stepMerge sessionRunning (mergeEndOfMission bf)).st.cycleHist = true ∧
      (stepMerge sessionRunning (mergeEndOfMission bf)).st.currentState
        = some "Recharging" := by
  decide

/-! ### C3 -/

/-- C3: whenever the top-level mapper's `update_map` runs with
`map_enabled` true, the attribute lookup
`self.roomba.timer_active` fails — class `Roomba` defines no such
attribute — so the call raises `AttributeError` before any state update
or rendering, and the merge-through-render sequence never completes
normally. -/
theorem c3_theorem (m : MapperSt) (force : Bool) (h : m.mapEnabled = true) :
    updateMapTop m force = .error .attributeError ∧
    roombaHasAttr "timer_active" = false := by
  have hta : roombaHasAttr "timer_active" = false := by decide
  refine ⟨?_, hta⟩
  simp [updateMapTop, h, hta]

/-- C3, witness: a concrete enabled mapper. -/
theorem c3_witness :
    updateMapTop ⟨true, [], [], 3, 0, 500⟩ false = .error .attributeError ∧
    roombaHasAttr "timer_active" = false :=
  c3_theorem ⟨true, [], [], 3, 0, 500⟩ false rfl

/-! ### C4 -/

/-- C4, counterexample.  On a merge where neither `cycle` nor `phase`
has ever been observed, the state is indeed left unchanged — but the
flag set is NOT: `_update_flags` runs before the unset-history guard, so
a tank level below 100 in the same snapshot sets `tank_low`. -/
theorem c4_counterexample :
    mergeUnsetHistories.phase = none ∧
    (stepMerge sessionCharging mergeUnsetHistories).st.currentState
      = sessionCharging.currentState ∧
    (stepMerge sessionCharging mergeUnsetHistories).st.flags
      ≠ sessionCharging.flags ∧
    (stepMerge sessionCharging mergeUnsetHistories).st.flags.tank_low = true := by
  decide

/-- C4, amended: when `cycle` or `phase` reads as never-observed, the
merge leaves the mission state, the whole mapper state (hence map and
path history) unchanged, invokes no reset and raises nothing — but the
flag set may still change, because the flag derivation runs before the
guard. -/
theorem c4_amended (st : RState) (inp : MergeInput)
    (h : inp.phase = none ∨ inp.cycle = none) :
    (stepMerge st inp).st.currentState = st.currentState ∧
    (stepMerge st inp).st.mapper = st.mapper ∧
    (stepMerge st inp).resetCalled = false ∧
    (stepMerge st inp).raised = false := by
  obtain ⟨cy, ph, pose, bf, tk, mm, bp, cp⟩ := inp
  rcases h with h | h
  · simp only at h
    subst h
    simp [stepMerge]
  · simp only at h
    subst h
    cases ph <;> simp [stepMerge]

/-- C4, witness: the concrete unset-history merge. -/
theorem c4_witness :
    (stepMerge sessionCharging mergeUnsetHistories).st.currentState
      = sessionCharging.currentState ∧
    (stepMerge sessionCharging mergeUnsetHistories).st.mapper
      = sessionCharging.mapper ∧
    (stepMerge sessionCharging mergeUnsetHistories).resetCalled = false ∧
    (stepMerge sessionCharging mergeUnsetHistories).raised = false :=
  c4_amended sessionCharging mergeUnsetHistories (Or.inl rfl)

/-! ### C6 -/

/-- C6, counterexample.  A `phase=run` report while `cycle` is `none`
does NOT leave the state unchanged: from `Charging` it enters
`New Mission` (there is no `ignore_run` timer anywhere in class `Roomba`
— no `timer_active`/`timer` attribute exists — and the transition chain
never tests the cycle value). -/
theorem c6_counterexample :
    mergeRunCycleNone.phase = some "run" ∧
    mergeRunCycleNone.cycle = some "none" ∧
    roombaHasAttr "timer_active" = false ∧
    (stepMerge sessionCharging mergeRunCycleNone).st.currentState
      = some "New Mission" ∧
    (stepMerge sessionCharging mergeRunCycleNone).st.currentState
      ≠ sessionCharging.currentState := by
  decide

/-- C6, amended: the interpreter has no `ignore_run` timer (class
`Roomba` defines no timer attribute at all).  A docking-return phase
drives the state through the transition chain — `Running` + `hmMidMsn`
gives `Docking`, which is not even the phase's mapped label
(`ROOMBA_STATES["hmMidMsn"] = "Recharging"`) — and a `phase=run` report
is processed normally rather than suppressed, entering `New Mission`
from `Charging` even while `cycle` is `none`. -/
theorem c6_amended :
    roombaHasAttr "timer_active" = false ∧
    roombaHasAttr "timer_duration" = false ∧
    (stepMerge sessionRunning mergeHmMidMsn).st.currentState = some "Docking" ∧
    RSget "hmMidMsn" = some "Recharging" ∧
    (stepMerge sessionRunning mergeHmMidMsn).st.currentState ≠ RSget "hmMidMsn" ∧
    (stepMerge sessionCharging mergeRunCycleNone).st.currentState
      = some "New Mission" := by
  decide

/-! ### C8 -/

/-- A concrete `master_state` heap:
address 5 is the root dict `{"pose": @4}`, address 4 the pose dict
`{"theta": @0, "point": @3}`, address 3 the point dict
`{"x": @1, "y": @2}`, with `theta = 1`, `x = 0`, `y = 0`. -/
def poseHeap : Heap :=
  [HNode.hint 1, HNode.hint 0, HNode.hint 0,
   HNode.hobj [("x", 1), ("y", 2)],
   HNode.hobj [("theta", 0), ("point", 3)],
   HNode.hobj [("pose", 4)]]

/-- `_update_history("pose")` on `poseHeap`: `get_property` resolves the
unique key `pose` to address 4; the value is a dict, so a shallow copy
is stored (the fresh node 6, sharing the `point` address 3). -/
def poseHistWrite : Heap × (Option Nat × Option Nat) :=
  updateHistoryHeap poseHeap none (some 4)

/-- A later merge of `{"pose": {"point": {"x": 5}}}` into the root:
`dict_merge` recurses through the existing `pose` and `point` dicts and
assigns `x` in place inside the shared node 3. -/
def poseHeapNestedMerge : Heap :=
  dictMergeFields poseHistWrite.1 5
    [("pose", JTree.jobj [("point", JTree.jobj [("x", JTree.jint 5)])])]

/-- A later merge of `{"pose": {"theta": 9}}` into the root: the
assignment lands in the snapshot's pose dict (node 4), not in the
history's shallow copy (node 6). -/
def poseHeapTopMerge : Heap :=
  dictMergeFields poseHistWrite.1 5
    [("pose", JTree.jobj [("theta", JTree.jint 9)])]

/-- C8, counterexample.  The history write stores the shallow copy at
address 6 (both `current` and `previous`, first observation).  Before
the merge, the history's stored value has `point.x = 0`; after the
structural merge `{"pose": {"point": {"x": 5}}}` mutates the snapshot's
nested `point` dict, the history's stored value reads `point.x = 5`:
the stored value is NOT independent of the snapshot. -/
theorem c8_counterexample :
    poseHistWrite.2 = (some 6, some 6) ∧
    readIntAt2 poseHistWrite.1 6 "point" "x" = some 0 ∧
    readIntAt2 poseHeapNestedMerge 6 "point" "x" = some 5 ∧
    readIntAt2 poseHeapNestedMerge 6 "point" "x"
      ≠ readIntAt2 poseHistWrite.1 6 "point" "x" := by
  decide

/-- C8, amended: the copy taken by `_update_history` is shallow
(`dict.copy()`).  A merge that touches only the property's direct
entries leaves the history's stored value unchanged (the history's copy
keeps its own key table: after merging `{"pose": {"theta": 9}}` the
snapshot reads `theta = 9` while the history still reads `theta = 1`),
but a merge into a second-level nested map mutates the object shared
between snapshot and history, changing the history's stored value
(`point.x` becomes 5 in both). -/
theorem c8_amended :
    readIntAt2 poseHistWrite.1 6 "point" "x" = some 0 ∧
    readIntAt2 poseHeapNestedMerge 4 "point" "x" = some 5 ∧
    readIntAt2 poseHeapNestedMerge 6 "point" "x" = some 5 ∧
    readIntAt1 poseHeapTopMerge 4 "theta" = some 9 ∧
    readIntAt1 poseHeapTopMerge 6 "theta" = some 1 := by
  decide

/-! ### C10 -/

/-- The integer square root at a concrete value, from the bracketing
squares. -/
theorem natSqrt_eq (n a : Nat) (h1 : a * a ≤ n) (h2 : n < (a + 1) * (a + 1)) :
    Nat.sqrt n = a :=
  (Nat.eq_sqrt.mpr ⟨h1, h2⟩).symm

/-- `int(math.sqrt(500² + 1²))` truncates to exactly 500. -/
theorem mapDistance_500_1 : mapDistance (0, 0) (500, 1) = 500 := by
  rw [show mapDistance (0, 0) (500, 1) = Nat.sqrt 250001 from rfl]
  exact natSqrt_eq 250001 500 (by norm_num) (by norm_num)

/-- `int(math.sqrt(501²))` is 501. -/
theorem mapDistance_501_0 : mapDistance (0, 0) (501, 0) = 501 := by
  rw [show mapDistance (0, 0) (501, 0) = Nat.sqrt 251001 from rfl]
  exact natSqrt_eq 251001 501 (by norm_num) (by norm_num)

/-- `int(math.sqrt(9999²))` is 9999. -/
theorem mapDistance_9999_0 : mapDistance (0, 0) (9999, 0) = 9999 := by
  rw [show mapDistance (0, 0) (9999, 0) = Nat.sqrt 99980001 from rfl]
  exact natSqrt_eq 99980001 9999 (by norm_num) (by norm_num)

/-- History (and filter-parameter) preservation of one pipeline update
when the incoming sample's truncated distance from the last accepted
sample exceeds the maximum. -/
theorem mapperUpdateState_far (tr : Pos → ImgPos) (m : MapperSt) (old p : Pos)
    (hlast : m.history.getLast? = some old)
    (hp : m.maxDistance < mapDistance (old.x, old.y) (p.x, p.y)) :
    (mapperUpdateState tr m (RSget "run") true p).history = m.history ∧
    (mapperUpdateState tr m (RSget "run") true p).maxDistance = m.maxDistance ∧
    (mapperUpdateState tr m (RSget "run") true p).pointsToSkip = m.pointsToSkip := by
  have hc1 : RSget "run" ≠ RSget "charge" := by decide
  have hc2 : RSget "run" ≠ RSget "evac" := by decide
  have hc3 : RSget "run" ≠ RSget "completed" := by decide
  by_cases hz : p = (⟨0, 0, 0⟩ : Pos)
  · simp [mapperUpdateState, hz, hc1, hc2, hc3]
  · by_cases hskip : m.pointsSkipped < m.pointsToSkip
    · simp [mapperUpdateState, hz, hskip, hc1, hc2, hc3]
    · by_cases heq : old.x = p.x ∧ old.y = p.y
      · simp [mapperUpdateState, hz, hskip, hlast, heq, hc1, hc2, hc3]
      · simp [mapperUpdateState, hz, hskip, hlast, heq, hp, hc1, hc2, hc3]

/-- C10, amended: the pipeline drops a sample when the *integer
truncated* distance `int(sqrt(dx^2+dy^2))` exceeds the maximum, and it
does so for every member of an arbitrary run of such samples — the raw
path history never grows.  (The comparison is not against the true
Euclidean distance; see the counterexample.) -/
theorem c10_amended (tr : Pos → ImgPos) (m : MapperSt) (old : Pos) (l : List Pos)
    (hlast : m.history.getLast? = some old)
    (hfar : ∀ p ∈ l, m.maxDistance < mapDistance (old.x, old.y) (p.x, p.y)) :
    (l.foldl (fun acc p => mapperUpdateState tr acc (RSget "run") true p) m).history
      = m.history := by
  induction l generalizing m with
  | nil => rfl
  | cons p rest ih =>
    have hp := hfar p (List.mem_cons_self p rest)
    obtain ⟨hh, hd, _⟩ := mapperUpdateState_far tr m old p hlast hp
    have hrest :
        (rest.foldl (fun acc q => mapperUpdateState tr acc (RSget "run") true q)
          (mapperUpdateState tr m (RSget "run") true p)).history
          = (mapperUpdateState tr m (RSget "run") true p).history := by
      refine ih (mapperUpdateState tr m (RSget "run") true p) ?_ ?_
      · rw [hh, hlast]
      · intro q hq
        rw [hd]
        exact hfar q (List.mem_cons_of_mem p hq)
    calc (List.foldl (fun acc q => mapperUpdateState tr acc (RSget "run") true q)
            m (p :: rest)).history
        = (rest.foldl (fun acc q => mapperUpdateState tr acc (RSget "run") true q)
            (mapperUpdateState tr m (RSget "run") true p)).history := rfl
      _ = (mapperUpdateState tr m (RSget "run") true p).history := hrest
      _ = m.history := hh

/-- C10, witness: two consecutive far samples (truncated distances 501
and 9999, both > 500) arriving after `(0, 0)` leave the raw history
untouched. -/
theorem c10_witness :
    ((([⟨501, 0, 0⟩, ⟨9999, 0, 0⟩] : List Pos).foldl
        (fun acc p => mapperUpdateState (fun _ => ⟨0, 0, 0⟩) acc (RSget "run") true p)
        ⟨true, [⟨0, 0, 0⟩], [⟨0, 0, 0⟩], 3, 3, 500⟩).history
      = [(⟨0, 0, 0⟩ : Pos)]) :=
  c10_amended (fun _ => ⟨0, 0, 0⟩) ⟨true, [⟨0, 0, 0⟩], [⟨0, 0, 0⟩], 3, 3, 500⟩
    ⟨0, 0, 0⟩ [⟨501, 0, 0⟩, ⟨9999, 0, 0⟩] rfl
    (by
      intro p hp
      have hp' : p = (⟨501, 0, 0⟩ : Pos) ∨ p = (⟨9999, 0, 0⟩ : Pos) := by
        simpa using hp
      rcases hp' with rfl | rfl
      · show (500 : Nat) < mapDistance (0, 0) (501, 0)
        rw [mapDistance_501_0]
        norm_num
      · show (500 : Nat) < mapDistance (0, 0) (9999, 0)
        rw [mapDistance_9999_0]
        norm_num)

/-- C10, counterexample.  The sample `(500, 1)` lies at true Euclidean
distance `sqrt(250001) > 500` from the previous accepted sample
`(0, 0)` — its squared distance exceeds `500²` — yet
`int(math.sqrt(...))` truncates to exactly `500`, the `> 500` test
fails, and the sample IS appended to the raw path history.  A sample
exceeding the maximum by a positive amount is therefore not always
dropped. -/
theorem c10_counterexample :
    ((500 : Int) ^ 2 < 500 ^ 2 + 1 ^ 2) ∧
    mapDistance (0, 0) (500, 1) = 500 ∧
    ¬ (500 < mapDistance (0, 0) (500, 1)) ∧
    (mapperUpdateState (fun _ => ⟨0, 0, 0⟩)
        ⟨true, [⟨0, 0, 0⟩], [⟨0, 0, 0⟩], 3, 3, 500⟩
        (RSget "run") true ⟨500, 1, 0⟩).history
      = [⟨0, 0, 0⟩, ⟨500, 1, 0⟩] := by
  have hc1 : RSget "run" ≠ RSget "charge" := by decide
  have hc2 : RSget "run" ≠ RSget "evac" := by decide
  have hc3 : RSget "run" ≠ RSget "completed" := by decide
  have hrw : mapDistance 0 (500, 1) = 500 := mapDistance_500_1
  have hne : (0 : Int × Int) ≠ (500, 1) := by decide
  refine ⟨by norm_num, mapDistance_500_1, ?_, ?_⟩
  · rw [mapDistance_500_1]
    omega
  · simp [mapperUpdateState, hc1, hc2, hc3, mapDistance_500_1, hrw, hne]

/-! ### C5 -/

/-- Python `%` with modulus 360 lands in `[0, 360)`. -/
theorem pyMod_bounds (x : ℚ) : 0 ≤ pyMod x 360 ∧ pyMod x 360 < 360 := by
  have h1 : (⌊x / 360⌋ : ℚ) ≤ x / 360 := Int.floor_le _
  have h2 : x / 360 < ⌊x / 360⌋ + 1 := Int.lt_floor_add_one _
  have h360 : (0 : ℚ) < 360 := by norm_num
  have e : 360 * (x / 360) = x := by field_simp
  constructor
  · have := mul_le_mul_of_nonneg_left h1 (le_of_lt h360)
    rw [e] at this
    unfold pyMod
    linarith
  · have := mul_lt_mul_of_pos_left h2 h360
    rw [e] at this
    unfold pyMod
    linarith

/-- C5, counterexample.  At `map_angle = 0`, `theta = 0` the top-level
transform (`roomba_mapper.py`, the variant actually driven by the
`Roomba` session, which flips chirality via `360 - t` and adds no 180°)
outputs `360`: not the claimed `(0 + 0 + 180) mod 360 = 180`, and not
even inside `[0, 360)`. -/
theorem c5_counterexample :
    imgThetaTopLevel 0 0 = 360 ∧
    pyMod (0 + 0 + 180) 360 = 180 ∧
    imgThetaTopLevel 0 0 ≠ pyMod (0 + 0 + 180) 360 ∧
    ¬ imgThetaTopLevel 0 0 < 360 := by
  have h1 : imgThetaTopLevel 0 0 = 360 := by
    unfold imgThetaTopLevel pyMod
    norm_num
  have h2 : pyMod (0 + 0 + 180) 360 = 180 := by
    unfold pyMod
    norm_num
  refine ⟨h1, h2, ?_, ?_⟩
  · rw [h1, h2]
    norm_num
  · rw [h1]
    norm_num

/-- C5, amended.  Only the mapping-package transform computes
`(map_angle + theta + 180) mod 360`, which indeed lies in `[0, 360)`
for every rational angle and heading (its `+ 360 if negative` fixup is
dead code).  The top-level transform instead computes
`360 - ((map_angle + theta) mod 360)`, which lies in `(0, 360]` — it
emits `360` (not `0`) whenever `map_angle + theta` is a multiple of
360. -/
theorem c5_amended (a t : ℚ) :
    imgThetaMapping a t = pyMod (a + t + 180) 360 ∧
    0 ≤ imgThetaMapping a t ∧
    imgThetaMapping a t < 360 ∧
    imgThetaTopLevel a t = 360 - pyMod (a + t) 360 ∧
    0 < imgThetaTopLevel a t ∧
    imgThetaTopLevel a t ≤ 360 := by
  obtain ⟨hm0, hm1⟩ := pyMod_bounds (a + t + 180)
  obtain ⟨hn0, hn1⟩ := pyMod_bounds (a + t)
  have e1 : imgThetaMapping a t = pyMod (a + t + 180) 360 := by
    unfold imgThetaMapping
    rw [if_neg (not_lt.mpr hm0)]
  have e2 : imgThetaTopLevel a t = 360 - pyMod (a + t) 360 := by
    show 360 - (if pyMod (a + t) 360 < 0 then pyMod (a + t) 360 + 360
                else pyMod (a + t) 360) = 360 - pyMod (a + t) 360
    rw [if_neg (not_lt.mpr hn0)]
  refine ⟨e1, ?_, ?_, e2, ?_, ?_⟩
  · rw [e1]; exact hm0
  · rw [e1]; exact hm1
  · rw [e2]; linarith
  · rw [e2]; linarith

/-- C5, witness: the amended statement at `map_angle = 10`,
`theta = -100` (a negative device heading). -/
theorem c5_witness :
    imgThetaMapping 10 (-100) = pyMod (10 + -100 + 180) 360 ∧
    0 ≤ imgThetaMapping 10 (-100) ∧
    imgThetaMapping 10 (-100) < 360 ∧
    imgThetaTopLevel 10 (-100) = 360 - pyMod (10 + -100) 360 ∧
    0 < imgThetaTopLevel 10 (-100) ∧
    imgThetaTopLevel 10 (-100) ≤ 360 :=
  c5_amended 10 (-100)

/-! ### C9 -/

/-- `clampQ` stays inside a non-empty interval. -/
theorem clampQ_mem (v lo hi : ℚ) (h : lo ≤ hi) :
    lo ≤ clampQ v lo hi ∧ clampQ v lo hi ≤ hi := by
  unfold clampQ
  constructor
  · exact le_max_right _ _
  · exact max_le (min_le_right _ _) h

/-- The `interpolate` of `math_helpers.py`, applied to the output range
`[0, W]` with `0 ≤ W` (as `_map_coord_to_image_coord` does with
`W = img_width - 1`), lands in `[0, W]` whatever the input value and
whatever the orientation of the input range. -/
theorem interpolateQ_bounds (v s e W : ℚ) (hse : s ≠ e) (hW : 0 ≤ W) :
    0 ≤ interpolateQ v (s, e) (0, W) ∧ interpolateQ v (s, e) (0, W) ≤ W := by
  have hout : ¬ ((0 : ℚ) > W) := not_lt.mpr hW
  by_cases hin : s > e
  · have hlt : e < s := hin
    have hpos : 0 < s - e := by linarith
    obtain ⟨hc1, hc2⟩ := clampQ_mem v e s (le_of_lt hlt)
    have hr0 : 0 ≤ (clampQ v e s - e) / (s - e) :=
      div_nonneg (by linarith) (le_of_lt hpos)
    have hr1 : (clampQ v e s - e) / (s - e) ≤ 1 :=
      (div_le_one hpos).mpr (by linarith)
    have hm0 : 0 ≤ (clampQ v e s - e) / (s - e) * (W - 0) :=
      mul_nonneg hr0 (by linarith)
    have hm1 : (clampQ v e s - e) / (s - e) * (W - 0) ≤ W := by
      have := mul_le_of_le_one_left (by linarith : (0:ℚ) ≤ W - 0) hr1
      linarith
    unfold interpolateQ
    simp only [hin, hout, if_true, if_false, decide_eq_true_eq, if_pos, if_neg,
      not_false_iff]
    constructor
    · simp [hin, hout]
      linarith
    · simp [hin, hout]
      linarith
  · have hlt : s < e := lt_of_le_of_ne (not_lt.mp hin) hse
    have hpos : 0 < e - s := by linarith
    obtain ⟨hc1, hc2⟩ := clampQ_mem v s e (le_of_lt hlt)
    have hr0 : 0 ≤ (clampQ v s e - s) / (e - s) :=
      div_nonneg (by linarith) (le_of_lt hpos)
    have hr1 : (clampQ v s e - s) / (e - s) ≤ 1 :=
      (div_le_one hpos).mpr (by linarith)
    have hm0 : 0 ≤ (clampQ v s e - s) / (e - s) * (W - 0) :=
      mul_nonneg hr0 (by linarith)
    have hm1 : (clampQ v s e - s) / (e - s) * (W - 0) ≤ W := by
      have := mul_le_of_le_one_left (by linarith : (0:ℚ) ≤ W - 0) hr1
      linarith
    unfold interpolateQ
    constructor
    · simp [hin, hout]
      linarith
    · simp [hin, hout]
      linarith

/-- Python `int()` truncation of a value in `[0, w-1]` stays in
`[0, w-1]`. -/
theorem pyInt_bounds (q : ℚ) (w : Int) (h0 : 0 ≤ q)
    (h1 : q ≤ ((w - 1 : Int) : ℚ)) :
    0 ≤ pyInt q ∧ pyInt q ≤ w - 1 := by
  unfold pyInt
  rw [if_pos h0]
  refine ⟨Int.le_floor.mpr (by exact_mod_cast h0), ?_⟩
  calc ⌊q⌋ ≤ ⌊((w - 1 : Int) : ℚ)⌋ := Int.floor_le_floor h1
    _ = w - 1 := Int.floor_intCast _

/-- C9: for every map whose device-space rectangle is non-degenerate on
each axis and whose raster is at least 1×1, the transform of any pose —
whatever the rotation stage produced, hence in particular any pose
inside `[coords_start, coords_end]` — yields integer image coordinates
inside `[0, img_width-1] × [0, img_height-1]` (the internal
interpolation clamps before scaling). -/
theorem c9_theorem (m : MapDefQ) (rx ry theta : ℚ)
    (hx : m.coordsStartX ≠ m.coordsEndX) (hy : m.coordsStartY ≠ m.coordsEndY)
    (hw : 1 ≤ m.imgWidth) (hh : 1 ≤ m.imgHeight) :
    0 ≤ (mapCoordToImageCoordQ m rx ry theta).1 ∧
    (mapCoordToImageCoordQ m rx ry theta).1 ≤ m.imgWidth - 1 ∧
    0 ≤ (mapCoordToImageCoordQ m rx ry theta).2.1 ∧
    (mapCoordToImageCoordQ m rx ry theta).2.1 ≤ m.imgHeight - 1 := by
  have hWx : (0 : ℚ) ≤ (m.imgWidth : ℚ) - 1 := by
    have : (1 : ℚ) ≤ (m.imgWidth : ℚ) := by exact_mod_cast hw
    linarith
  have hWy : (0 : ℚ) ≤ (m.imgHeight : ℚ) - 1 := by
    have : (1 : ℚ) ≤ (m.imgHeight : ℚ) := by exact_mod_cast hh
    linarith
  obtain ⟨hx0, hx1⟩ :=
    interpolateQ_bounds rx m.coordsStartX m.coordsEndX ((m.imgWidth : ℚ) - 1) hx hWx
  obtain ⟨hy0, hy1⟩ :=
    interpolateQ_bounds ry m.coordsStartY m.coordsEndY ((m.imgHeight : ℚ) - 1) hy hWy
  have px := pyInt_bounds _ _ hx0 (by
    rw [show ((m.imgWidth - 1 : Int) : ℚ) = (m.imgWidth : ℚ) - 1 by push_cast; ring]
    exact hx1)
  have py := pyInt_bounds _ _ hy0 (by
    rw [show ((m.imgHeight - 1 : Int) : ℚ) = (m.imgHeight : ℚ) - 1 by push_cast; ring]
    exact hy1)
  exact ⟨px.1, px.2, py.1, py.2⟩

/-- C9, witness: the default 2000×2000-unit map on a 1000×1000 raster,
with an in-rectangle pose. -/
theorem c9_witness :
    ((-1000 : ℚ) ≠ 1000 ∧ (1 : Int) ≤ 1000) ∧
    (0 ≤ (mapCoordToImageCoordQ ⟨-1000, -1000, 1000, 1000, 1000, 1000, 0⟩
            500 (-250) 90).1 ∧
      (mapCoordToImageCoordQ ⟨-1000, -1000, 1000, 1000, 1000, 1000, 0⟩
            500 (-250) 90).1 ≤ 1000 - 1 ∧
      0 ≤ (mapCoordToImageCoordQ ⟨-1000, -1000, 1000, 1000, 1000, 1000, 0⟩
            500 (-250) 90).2.1 ∧
      (mapCoordToImageCoordQ ⟨-1000, -1000, 1000, 1000, 1000, 1000, 0⟩
            500 (-250) 90).2.1 ≤ 1000 - 1) :=
  ⟨⟨by norm_num, by norm_num⟩,
    c9_theorem ⟨-1000, -1000, 1000, 1000, 1000, 1000, 0⟩ 500 (-250) 90
      (by norm_num) (by norm_num) (by norm_num) (by norm_num)⟩

/-! ### C7 -/

/-- A folded `min` is a lower bound of its seed. -/
theorem foldlMin_le_init (l : List Int) : ∀ a, foldlMin a l ≤ a := by
  induction l with
  | nil => intro a; exact le_refl a
  | cons x xs ih =>
    intro a
    calc foldlMin a (x :: xs) = foldlMin (min a x) xs := rfl
      _ ≤ min a x := ih (min a x)
      _ ≤ a := min_le_left _ _

/-- A folded `min` is a lower bound of every list element. -/
theorem foldlMin_le_mem (l : List Int) :
    ∀ a x, x ∈ l → foldlMin a l ≤ x := by
  induction l with
  | nil => intro a x hx; cases hx
  | cons y ys ih =>
    intro a x hx
    rcases List.mem_cons.mp hx with rfl | hx
    · calc foldlMin a (x :: ys) = foldlMin (min a x) ys := rfl
        _ ≤ min a x := foldlMin_le_init ys (min a x)
        _ ≤ x := min_le_right _ _
    · exact ih (min a y) x hx

/-- A folded `min` is attained: it is the seed or one of the
elements. -/
theorem foldlMin_attained (l : List Int) :
    ∀ a, foldlMin a l = a ∨ foldlMin a l ∈ l := by
  induction l with
  | nil => intro a; exact Or.inl rfl
  | cons x xs ih =>
    intro a
    rcases ih (min a x) with h | h
    · rcases min_cases a x with ⟨hm, _⟩ | ⟨hm, _⟩
      · exact Or.inl (by rw [show foldlMin a (x :: xs) = foldlMin (min a x) xs
            from rfl, h, hm])
      · refine Or.inr (List.mem_cons.mpr (Or.inl ?_))
        rw [show foldlMin a (x :: xs) = foldlMin (min a x) xs from rfl, h, hm]
    · exact Or.inr (List.mem_cons.mpr (Or.inr h))

/-- A folded `max` is an upper bound of its seed. -/
theorem foldlMax_ge_init (l : List Int) : ∀ a, a ≤ foldlMax a l := by
  induction l with
  | nil => intro a; exact le_refl a
  | cons x xs ih =>
    intro a
    calc a ≤ max a x := le_max_left _ _
      _ ≤ foldlMax (max a x) xs := ih (max a x)
      _ = foldlMax a (x :: xs) := rfl

/-- A folded `max` is an upper bound of every list element. -/
theorem foldlMax_ge_mem (l : List Int) :
    ∀ a x, x ∈ l → x ≤ foldlMax a l := by
  induction l with
  | nil => intro a x hx; cases hx
  | cons y ys ih =>
    intro a x hx
    rcases List.mem_cons.mp hx with rfl | hx
    · calc x ≤ max a x := le_max_right _ _
        _ ≤ foldlMax (max a x) ys := foldlMax_ge_init ys (max a x)
        _ = foldlMax a (x :: ys) := rfl
    · exact ih (max a y) x hx

/-- A folded `max` is attained: it is the seed or one of the
elements. -/
theorem foldlMax_attained (l : List Int) :
    ∀ a, foldlMax a l = a ∨ foldlMax a l ∈ l := by
  induction l with
  | nil => intro a; exact Or.inl rfl
  | cons x xs ih =>
    intro a
    rcases ih (max a x) with h | h
    · rcases max_cases a x with ⟨hm, _⟩ | ⟨hm, _⟩
      · exact Or.inl (by rw [show foldlMax a (x :: xs) = foldlMax (max a x) xs
            from rfl, h, hm])
      · refine Or.inr (List.mem_cons.mpr (Or.inl ?_))
        rw [show foldlMax a (x :: xs) = foldlMax (max a x) xs from rfl, h, hm]
    · exact Or.inr (List.mem_cons.mpr (Or.inr h))

/-- C7, counterexample.  The queryable accessors of the top-level
`RoombaMapper` fail on every non-empty raw path history: for the
single-sample history `[{x: 1, y: 2}]`, `min(self._history)` returns
the pose dict and the subscript `[0]` raises `KeyError` instead of
producing `(1, 2)`; with two samples the dict comparison raises
`TypeError` first.  The query is supposed never to fail. -/
theorem c7_counterexample :
    minCoordsTopLevel [⟨1, 2, 0⟩] = .error .keyError ∧
    minCoordsTopLevel [⟨1, 2, 0⟩] ≠ .ok (1, 2) ∧
    maxCoordsTopLevel [⟨1, 2, 0⟩] = .error .keyError ∧
    minCoordsTopLevel [⟨1, 2, 0⟩, ⟨3, 4, 0⟩] = .error .typeError := by
  decide

/-- C7, amended.  Both versions return `(0, 0)` on an empty history.
The mapping-package accessors do return the coordinate-wise minimum and
maximum of the raw path history (lower/upper bound on every sample, and
each bound is attained by some sample).  The top-level accessors,
however, raise on every non-empty history (`KeyError` on one sample,
`TypeError` on more), so only the mapping-package query never fails. -/
theorem c7_amended :
    minCoordsTopLevel [] = .ok (0, 0) ∧
    maxCoordsTopLevel [] = .ok (0, 0) ∧
    minCoordsMapping [] = (0, 0) ∧
    maxCoordsMapping [] = (0, 0) ∧
    (∀ h : List Pos, h ≠ [] → (∃ e, minCoordsTopLevel h = .error e) ∧
      (∃ e, maxCoordsTopLevel h = .error e)) ∧
    (∀ (h : List Pos) (p : Pos), p ∈ h →
      (minCoordsMapping h).1 ≤ p.x ∧ (minCoordsMapping h).2 ≤ p.y ∧
      p.x ≤ (maxCoordsMapping h).1 ∧ p.y ≤ (maxCoordsMapping h).2) ∧
    (∀ h : List Pos, h ≠ [] →
      (∃ p ∈ h, (minCoordsMapping h).1 = p.x) ∧
      (∃ p ∈ h, (minCoordsMapping h).2 = p.y) ∧
      (∃ p ∈ h, (maxCoordsMapping h).1 = p.x) ∧
      (∃ p ∈ h, (maxCoordsMapping h).2 = p.y)) := by
  refine ⟨rfl, rfl, rfl, rfl, ?_, ?_, ?_⟩
  · intro h hne
    match h with
    | [] => exact absurd rfl hne
    | [d] => exact ⟨⟨.keyError, rfl⟩, ⟨.keyError, rfl⟩⟩
    | a :: b :: rest => exact ⟨⟨.typeError, rfl⟩, ⟨.typeError, rfl⟩⟩
  · intro h p hp
    match h, hp with
    | q :: rest, hp =>
      rcases List.mem_cons.mp hp with rfl | hp
      · exact ⟨foldlMin_le_init _ _, foldlMin_le_init _ _,
          foldlMax_ge_init _ _, foldlMax_ge_init _ _⟩
      · exact ⟨foldlMin_le_mem _ _ _ (List.mem_map_of_mem (·.x) hp),
          foldlMin_le_mem _ _ _ (List.mem_map_of_mem (·.y) hp),
          foldlMax_ge_mem _ _ _ (List.mem_map_of_mem (·.x) hp),
          foldlMax_ge_mem _ _ _ (List.mem_map_of_mem (·.y) hp)⟩
  · intro h hne
    match h with
    | [] => exact absurd rfl hne
    | q :: rest =>
      refine ⟨?_, ?_, ?_, ?_⟩
      · rcases foldlMin_attained (rest.map (·.x)) q.x with hm | hm
        · exact ⟨q, List.mem_cons_self q rest, hm⟩
        · obtain ⟨p, hp, hpx⟩ := List.mem_map.mp hm
          exact ⟨p, List.mem_cons_of_mem q hp, hpx.symm⟩
      · rcases foldlMin_attained (rest.map (·.y)) q.y with hm | hm
        · exact ⟨q, List.mem_cons_self q rest, hm⟩
        · obtain ⟨p, hp, hpy⟩ := List.mem_map.mp hm
          exact ⟨p, List.mem_cons_of_mem q hp, hpy.symm⟩
      · rcases foldlMax_attained (rest.map (·.x)) q.x with hm | hm
        · exact ⟨q, List.mem_cons_self q rest, hm⟩
        · obtain ⟨p, hp, hpx⟩ := List.mem_map.mp hm
          exact ⟨p, List.mem_cons_of_mem q hp, hpx.symm⟩
      · rcases foldlMax_attained (rest.map (·.y)) q.y with hm | hm
        · exact ⟨q, List.mem_cons_self q rest, hm⟩
        · obtain ⟨p, hp, hpy⟩ := List.mem_map.mp hm
          exact ⟨p, List.mem_cons_of_mem q hp, hpy.symm⟩

/-- C7, witness: the amended statement instantiated on the two-sample
history `[{x: 3, y: 5}, {x: 1, y: 9}]`. -/
theorem c7_witness :
    ((∃ e, minCoordsTopLevel [⟨3, 5, 0⟩, ⟨1, 9, 0⟩] = .error e) ∧
      (∃ e, maxCoordsTopLevel [⟨3, 5, 0⟩, ⟨1, 9, 0⟩] = .error e)) ∧
    ((minCoordsMapping [⟨3, 5, 0⟩, ⟨1, 9, 0⟩]).1 ≤ 1 ∧
      (minCoordsMapping [⟨3, 5, 0⟩, ⟨1, 9, 0⟩]).2 ≤ 9 ∧
      (1 : Int) ≤ (maxCoordsMapping [⟨3, 5, 0⟩, ⟨1, 9, 0⟩]).1 ∧
      (9 : Int) ≤ (maxCoordsMapping [⟨3, 5, 0⟩, ⟨1, 9, 0⟩]).2) ∧
    (∃ p ∈ ([⟨3, 5, 0⟩, ⟨1, 9, 0⟩] : List Pos),
      (minCoordsMapping [⟨3, 5, 0⟩, ⟨1, 9, 0⟩]).1 = p.x) :=
  ⟨(c7_amended.2.2.2.2.1 [⟨3, 5, 0⟩, ⟨1, 9, 0⟩] (by decide)),
    (c7_amended.2.2.2.2.2.1 [⟨3, 5, 0⟩, ⟨1, 9, 0⟩] ⟨1, 9, 0⟩ (by decide)),
    (c7_amended.2.2.2.2.2.2 [⟨3, 5, 0⟩, ⟨1, 9, 0⟩] (by decide)).1⟩

end Roombapy
